import Mathlib

/-!
# Verification of `crypto_market_monitor.py`

A shallow embedding of the change-detection and notification core of the
CryptoNewsFeed repository (single source file `crypto_market_monitor.py`),
together with theorems settling the specification claims.

Modelling conventions:
* Python/JSON values are modelled by the inductive `Json`; Python `None` and
  JSON `null` (which `json.load` identifies) are both `Json.null`.
* Python floats are modelled as exact rationals `ℚ`; the claims under study
  concern equality and order comparisons only.
* Fallible Python expressions (those that can raise) are modelled in
  `Except String α`, the error string naming the exception class.
* The effectful environment (HTTP responses, the Telegram transport, the
  wall clock) is passed in as explicit parameters; the file system action is
  returned as a `FileAction` value.
-/

/-- A JSON / Python data value as produced by `json.load`.  JSON objects are
kept as entry lists; objects produced by `json.load` have distinct keys
(later duplicate keys in the raw text overwrite earlier ones before the
program sees them), and lookup below uses last-wins order to match `dict`
semantics under updates. -/
inductive Json where
  | null
  | bool (b : Bool)
  | num (q : ℚ)
  | str (s : String)
  | arr (elems : List Json)
  | obj (entries : List (String × Json))

/-- Dictionary lookup on a JSON object's entry list, last occurrence wins
(Python `dict` semantics: a later binding of the same key shadows an earlier
one). -/
def objLookup : List (String × Json) → String → Option Json
  | [], _ => none
  | kv :: rest, k =>
    match objLookup rest k with
    | some v => some v
    | none => if kv.1 = k then some kv.2 else none

/-- Python `d[k] = v` on a dict represented as an entry list: replaces the
binding in place when the key is present, appends otherwise (insertion
order is preserved, as for Python dicts). -/
def dictInsert (d : List (String × Json)) (k : String) (v : Json) :
    List (String × Json) :=
  match objLookup d k with
  | some _ => d.map (fun kv => if kv.1 = k then (k, v) else kv)
  | none => d ++ [(k, v)]

/-- Python `x.get(key, dflt)`: succeeds only when the receiver is a dict;
any other receiver raises `AttributeError` (source: `prev_data.get(key,
{}).get('value')`, line 277). -/
def dictGet (j : Json) (key : String) (dflt : Json) : Except String Json :=
  match j with
  | .obj es =>
    match objLookup es key with
    | some v => .ok v
    | none => .ok dflt
  | _ => .error "AttributeError"

/-- Python `x != cv` specialised to a float right operand `cv`, as in
`prev_value != current_value` (line 278), returned as the *equality* test.
Numbers and booleans compare numerically (`True == 1.0` in Python); every
other value is unequal to a float.  This comparison never raises. -/
def pyEqNum (x : Json) (q : ℚ) : Bool :=
  match x with
  | .num p => decide (p = q)
  | .bool b => decide ((if b then (1 : ℚ) else 0) = q)
  | _ => false

/-- Python `cv > x` for a float left operand, as in
`current_value > prev_value` (line 283).  Numbers and booleans compare
numerically; any other right operand raises `TypeError`. -/
def pyGtNum (q : ℚ) (x : Json) : Except String Bool :=
  match x with
  | .num p => .ok (decide (p < q))
  | .bool b => .ok (decide ((if b then (1 : ℚ) else 0) < q))
  | _ => .error "TypeError"

/-- Python `len(x)` (used on `result['observations']` etc.): defined for
lists, strings and dicts, raises `TypeError` otherwise. -/
def pyLen : Json → Except String ℕ
  | .arr xs => .ok xs.length
  | .str s => .ok s.length
  | .obj es => .ok es.length
  | _ => .error "TypeError"

/-- Python `x[k]` for a string key: dict lookup (`KeyError` when absent);
indexing a string, list, number… with a string key raises `TypeError`. -/
def pyGetItemStr (j : Json) (k : String) : Except String Json :=
  match j with
  | .obj es =>
    match objLookup es k with
    | some v => .ok v
    | none => .error "KeyError"
  | _ => .error "TypeError"

/-- Python `x[i]` for a non-negative integer index: list indexing
(`IndexError` out of range), string indexing (yields a one-character
string), `KeyError` on a dict with string keys, `TypeError` otherwise. -/
def pyGetItemNat (j : Json) (i : ℕ) : Except String Json :=
  match j with
  | .arr xs =>
    match xs.get? i with
    | some v => .ok v
    | none => .error "IndexError"
  | .str s =>
    match s.toList.get? i with
    | some c => .ok (.str (String.mk [c]))
    | none => .error "IndexError"
  | .obj _ => .error "KeyError"
  | _ => .error "TypeError"

/-- Python `k in x` for a string `k`: key membership for dicts, element
membership for lists (a list element equals the string `k` exactly when it
is that string), substring test for strings, `TypeError` otherwise. -/
def pyContains (j : Json) (k : String) : Except String Bool :=
  match j with
  | .obj es => .ok (objLookup es k).isSome
  | .arr xs =>
    .ok (xs.any (fun x =>
      match x with
      | .str s => decide (s = k)
      | _ => false))
  | .str s => .ok (decide (1 < (s.splitOn k).length))
  | _ => .error "TypeError"

/-- Digit-string accumulator for `parseFloat`. -/
def digitsValAux : ℕ → List Char → Option ℕ
  | acc, [] => some acc
  | acc, c :: cs =>
    if c.isDigit then digitsValAux (10 * acc + (c.toNat - 48)) cs else none

/-- Model of Python `float(s)` on plain decimal literals
(optional sign, `123`, `123.45`, `123.`, `.45`); `float(".")` and any
non-numeric string fail (→ `ValueError` at the caller).  Exponent, inf/nan
and surrounding-whitespace forms are outside the inputs any claim touches
and are treated as failures. -/
def parseFloat (s : String) : Option ℚ :=
  let go : List Char → Option ℚ := fun cs =>
    let intPart := cs.takeWhile Char.isDigit
    let rest := cs.dropWhile Char.isDigit
    match rest with
    | [] =>
      if intPart.isEmpty then none
      else (digitsValAux 0 intPart).map (fun n => (n : ℚ))
    | '.' :: frac =>
      if intPart.isEmpty ∧ frac.isEmpty then none
      else if frac.all Char.isDigit then
        match digitsValAux 0 intPart, digitsValAux 0 frac with
        | some i, some f => some ((i : ℚ) + (f : ℚ) / (10 : ℚ) ^ frac.length)
        | _, _ => none
      else none
    | _ => none
  match s.toList with
  | '-' :: cs => (go cs).map (fun q => -q)
  | '+' :: cs => go cs
  | cs => go cs

/-- Python `float(x)` on a JSON value: numbers pass through, booleans map to
0/1, strings are parsed (`ValueError` on failure), everything else raises
`TypeError`. -/
def pyFloat : Json → Except String ℚ
  | .num q => .ok q
  | .bool b => .ok (if b then 1 else 0)
  | .str s =>
    match parseFloat s with
    | some q => .ok q
    | none => .error "ValueError"
  | _ => .error "TypeError"

/-- Outcome of one HTTP call as the program observes it: either the
`requests` call itself raises (network error), or a response arrives with a
status code and a body that either parses as JSON or does not
(`response.json()` raising `JSONDecodeError`). -/
inductive HttpOutcome where
  | netError
  | response (status : ℕ) (body : Option Json)

/-- Model of `send_message_to_telegram` (lines 54-68): the entire `requests.post`
call sits inside `try/except Exception`, and a non-200 status is only
logged, so every outcome returns normally.  The returned string is the log
line the function emits. -/
def send_message_to_telegram (o : HttpOutcome) : Except String String :=
  match o with
  | .netError => .ok "Error sending message to Telegram"
  | .response status _ =>
    if status = 200 then .ok "Message sent to Telegram successfully."
    else .ok "Failed to send message to Telegram"

/-- Model of `get_real_gdp` (lines 90-106).  `requests.get` is not wrapped in any
`try/except`, so a network error propagates; likewise `response.json()` on
a non-JSON body, and any exception from the field accesses or `float(...)`
on the payload.  Only a non-200 status or a well-formed body lacking a
non-empty `observations` list reaches the final `return None, None`. -/
def get_real_gdp (o : HttpOutcome) : Except String (Option ℚ × Json) :=
  match o with
  | .netError => .error "ConnectionError"
  | .response status body =>
    if status = 200 then
      match body with
      | none => .error "JSONDecodeError"
      | some result =>
        match pyContains result "observations" with
        | .error e => .error e
        | .ok true =>
          match pyGetItemStr result "observations" with
          | .error e => .error e
          | .ok obs =>
            match pyLen obs with
            | .error e => .error e
            | .ok n =>
              if 0 < n then
                match pyGetItemNat obs 0 with
                | .error e => .error e
                | .ok first =>
                  match pyGetItemStr first "value" with
                  | .error e => .error e
                  | .ok vj =>
                    match pyFloat vj with
                    | .error e => .error e
                    | .ok v =>
                      match pyGetItemStr first "date" with
                      | .error e => .error e
                      | .ok dj => .ok (some v, dj)
              else .ok (none, Json.null)
        | .ok false => .ok (none, Json.null)
    else .ok (none, Json.null)

/-- Model of `get_fear_greed_index` (lines 198-207): same shape as `get_real_gdp`
with the `data` list and the `value`/`timestamp` fields, and the same
absence of any exception handling. -/
def get_fear_greed_index (o : HttpOutcome) : Except String (Option ℚ × Json) :=
  match o with
  | .netError => .error "ConnectionError"
  | .response status body =>
    if status = 200 then
      match body with
      | none => .error "JSONDecodeError"
      | some result =>
        match pyContains result "data" with
        | .error e => .error e
        | .ok true =>
          match pyGetItemStr result "data" with
          | .error e => .error e
          | .ok xs =>
            match pyLen xs with
            | .error e => .error e
            | .ok n =>
              if 0 < n then
                match pyGetItemNat xs 0 with
                | .error e => .error e
                | .ok first =>
                  match pyGetItemStr first "value" with
                  | .error e => .error e
                  | .ok vj =>
                    match pyFloat vj with
                    | .error e => .error e
                    | .ok v =>
                      match pyGetItemStr first "timestamp" with
                      | .error e => .error e
                      | .ok tj => .ok (some v, tj)
              else .ok (none, Json.null)
        | .ok false => .ok (none, Json.null)
    else .ok (none, Json.null)

/-- State of the persisted baseline file `news_economic.json` as
`check_and_log_data` finds it: absent, present but zero-sized, present with
content `json.load` rejects, or present with content parsing to `j`. -/
inductive Stored where
  | missing
  | empty
  | invalid
  | valid (j : Json)

/-- Lines 210-221: `prev_data = {}`; the file is read only when it exists
and is non-empty; `json.JSONDecodeError` is caught and resets `prev_data`
to `{}`.  A file parsing to any JSON value — dict-shaped or not — is passed
through unchanged. -/
def loadPrevData : Stored → Json
  | .missing => .obj []
  | .empty => .obj []
  | .invalid => .obj []
  | .valid j => j

/-- Line 277: `prev_value = prev_data.get(key, {}).get('value')`.  Absent
key and stored JSON `null` both come back as Python `None` (`Json.null`);
a non-dict `prev_data`, or a non-dict record, raises `AttributeError`. -/
def getPrevValue (prev_data : Json) (key : String) : Except String Json :=
  match dictGet prev_data key (.obj []) with
  | .error e => .error e
  | .ok record => dictGet record "value" .null

/-- Line 283:
`direction = "increase" if prev_value is not None and current_value > prev_value else "decrease"`.
The `and` short-circuits, so with `prev_value = None` the comparison is
never evaluated and the direction is unconditionally `"decrease"`. -/
def directionOf (prev_value : Json) (current_value : ℚ) : Except String String :=
  match prev_value with
  | .null => .ok "decrease"
  | pv =>
    match pyGtNum current_value pv with
    | .error e => .error e
    | .ok gt => .ok (if gt then "increase" else "decrease")

/-- The `influence` table (lines 238-271): per indicator, the impact text
for `increase` and for `decrease`. -/
def influenceTable : List (String × String × String) := [
  ("Unemployment Rate", "行情利空，对币市看空 😔", "行情利好，对币市看多 🙂"),
  ("Real GDP (FRED)", "对经济有利，风险较大，对币市看多 🙂", "对经济不利，风险较大，对币市看空 😔"),
  ("Consumer Price Index (CPI)", "对抗通胀有利，对币市看多 🙂", "通胀减少无明显影响 😐"),
  ("Fed Interest Rate Policy", "利率上升，对币市看空 😔", "利率下降，对币市看多 🙂"),
  ("Producer Price Index (PPI)", "对抗通胀有利，对币市看多 🙂", "生产成本下降无明显影响 😐"),
  ("Non-Farm Payroll Report", "就业增加，对币市看多 🙂", "就业减少，对币市看空 😔"),
  ("Retail Sales Data", "消费增加，对币市看多 🙂", "消费减少，对币市看空 😔"),
  ("Fear and Greed Index", "市场恐惧减弱，对币市看多 🙂", "市场恐惧增强，对币市看空 😔")]

/-- Line 284: `impact = influence[key][direction]`; an unknown indicator
name, or a direction other than the two table keys, raises `KeyError`. -/
def influenceLookup (key direction : String) : Except String String :=
  match influenceTable.find? (fun row => decide (row.1 = key)) with
  | none => .error "KeyError"
  | some row =>
    if direction = "increase" then .ok row.2.1
    else if direction = "decrease" then .ok row.2.2
    else .error "KeyError"

/-- The eight indicator names, in the iteration order of the `indicators`
dict (lines 224-233). -/
def indicatorNames : List String :=
  ["Unemployment Rate", "Real GDP (FRED)", "Consumer Price Index (CPI)",
   "Fed Interest Rate Policy", "Producer Price Index (PPI)",
   "Non-Farm Payroll Report", "Retail Sales Data", "Fear and Greed Index"]

/-- Fractional digits of `m` zero-padded on the left to width `k`. -/
def natDecimals (m k : ℕ) : String :=
  let s := toString m
  String.mk (List.replicate (k - s.length) '0') ++ s

/-- Rendering of a rational in Python `str(float)` style for floats whose
shortest representation is a plain decimal: integers print with a trailing
`.0`, other decimal-denominator rationals print with the least number of
fractional digits.  (Only such values appear in the concrete runs below.) -/
def ratToStr (q : ℚ) : String :=
  let sign := if q < 0 then "-" else ""
  let n := q.num.natAbs
  let d := q.den
  if d = 1 then sign ++ toString n ++ ".0"
  else
    match (List.range 30).find? (fun k => decide (d ∣ 10 ^ k)) with
    | some k =>
      let m := n * (10 ^ k / d)
      sign ++ toString (m / 10 ^ k) ++ "." ++ natDecimals (m % 10 ^ k) k
    | none => sign ++ toString n ++ "/" ++ toString d

/-- Python `str()` of the values that can appear as `prev_value_display`.
Lists and dicts render structurally in Python; no claim touches that case,
so they get a fixed placeholder here. -/
def pyStr : Json → String
  | .null => "None"
  | .bool true => "True"
  | .bool false => "False"
  | .num q => ratToStr q
  | .str s => s
  | .arr _ => "<list>"
  | .obj _ => "<dict>"

/-- Lines 286-287: `prev_value_display` and the f-string `change_message`.
Note the message interpolates no timestamp: line 285 binds
`timestamp = get_utc_plus_8_time()` and the variable is never used. -/
def changeMessage (key : String) (prev_value : Json) (current_value : ℚ)
    (direction impact : String) : String :=
  let prev_value_display :=
    match prev_value with
    | .null => "无记录的"
    | pv => pyStr pv
  key ++ " 更新: 由 " ++ prev_value_display ++ " 变为 " ++ ratToStr current_value ++
    " (" ++ (if direction = "increase" then "📈 增加" else "📉 减少") ++
    ", " ++ impact ++ ")"

/-- Accumulated loop state of `check_and_log_data`: the messages passed to
`send_message_to_telegram` (in order), the log lines the transport emitted,
the `new_data` dict, and the `updated_indicators` list. -/
structure RunState where
  notifications : List String
  notifyLogs : List String
  new_data : List (String × Json)
  updated_indicators : List String

/-- The loop state at entry of the loop (lines 235, 274). -/
def initState : RunState := ⟨[], [], [], []⟩

/-- One iteration of the loop at lines 275-293 for indicator `key` with
fetched `(current_value, date)`.  `notify` is the Telegram transport's
response to a given message text.  A `None` value skips the iteration
entirely; an equal stored value skips it after the baseline read; otherwise
the override record is built, the direction and impact computed, the
message sent, and the bookkeeping lists extended. -/
def processOne (prev_data : Json) (notify : String → HttpOutcome)
    (st : RunState) (key : String) (current_value : Option ℚ) (date : Json) :
    Except String RunState :=
  match current_value with
  | none => .ok st
  | some cv =>
    match getPrevValue prev_data key with
    | .error e => .error e
    | .ok prev_value =>
      if pyEqNum prev_value cv then .ok st
      else
        match directionOf prev_value cv with
        | .error e => .error e
        | .ok direction =>
          match influenceLookup key direction with
          | .error e => .error e
          | .ok impact =>
            let msg := changeMessage key prev_value cv direction impact
            match send_message_to_telegram (notify msg) with
            | .error e => .error e
            | .ok lg =>
              .ok { notifications := st.notifications ++ [msg],
                    notifyLogs := st.notifyLogs ++ [lg],
                    new_data := dictInsert st.new_data key
                      (Json.obj [("value", Json.num cv), ("date", date)]),
                    updated_indicators := st.updated_indicators ++ [key] }

/-- The loop of lines 275-293 over the fetched `(name, value, date)`
triples, threading the state; an exception aborts the run before any file
write. -/
def runStates (prev_data : Json) (notify : String → HttpOutcome) :
    RunState → List (String × Option ℚ × Json) → Except String RunState
  | st, [] => .ok st
  | st, x :: rest =>
    match processOne prev_data notify st x.1 x.2.1 x.2.2 with
    | .error e => .error e
    | .ok st' => runStates prev_data notify st' rest

/-- What `check_and_log_data` does to the baseline file. -/
inductive FileAction where
  | noWrite
  | write (contents : Json)

/-- Python `{**prev_data, **new_data}` on entry lists: the overrides of
`new_data` applied in order to `prev_data`. -/
def mergeNew (es nd : List (String × Json)) : List (String × Json) :=
  nd.foldl (fun acc kv => dictInsert acc kv.1 kv.2) es

/-- Lines 296-302: the file is rewritten once, with
`{**prev_data, **new_data}`, exactly when `updated_indicators` is
non-empty; `**`-unpacking a non-dict `prev_data` would raise `TypeError`
(unreachable when the loop updated anything, kept for faithfulness). -/
def commitAction (prev_data : Json) (st : RunState) : Except String FileAction :=
  if st.updated_indicators.isEmpty then .ok FileAction.noWrite
  else
    match prev_data with
    | .obj es => .ok (FileAction.write (Json.obj (mergeNew es st.new_data)))
    | _ => .error "TypeError"

/-- Model of `check_and_log_data` (lines 209-302) over an explicit environment:
the stored baseline file, the clock reading `get_utc_plus_8_time()` would
return (bound on line 285 to a variable the source never uses — the
parameter is threaded to record that nothing can depend on it), the
Telegram transport, and the already-returned fetch results in iteration
order.  Yields the final loop state and the file action. -/
def check_and_log_data (stored : Stored) (_now : String)
    (notify : String → HttpOutcome)
    (fetched : List (String × Option ℚ × Json)) :
    Except String (RunState × FileAction) :=
  let prev_data := loadPrevData stored
  match runStates prev_data notify initState fetched with
  | .error e => .error e
  | .ok st =>
    match commitAction prev_data st with
    | .error e => .error e
    | .ok act => .ok (st, act)

/-- Invariant of the loop state relative to the fetched collection `univ`:
`new_data`'s keys are exactly `updated_indicators`, and every record in
`new_data` is the override `{value, date}` built from some fetched
non-null observation. -/
def stateInv (univ : List (String × Option ℚ × Json)) (st : RunState) : Prop :=
  (∀ k, (objLookup st.new_data k).isSome = true ↔ k ∈ st.updated_indicators) ∧
  (∀ k r, objLookup st.new_data k = some r →
    ∃ v d, (k, some v, d) ∈ univ ∧
      r = Json.obj [("value", Json.num v), ("date", d)])


/-- Forget the transport log lines, keeping every field of the state the
rest of the run can observe. -/
def scrubLogs (st : RunState) : RunState := { st with notifyLogs := [] }

/-- The map `scrubLogs` lifted to loop results. -/
def scrubExcept : Except String RunState → Except String RunState
  | .error e => .error e
  | .ok st => .ok (scrubLogs st)

/-- The map `scrubLogs` lifted to whole-run results. -/
def scrubRun :
    Except String (RunState × FileAction) → Except String (RunState × FileAction)
  | .error e => .error e
  | .ok (st, act) => .ok (scrubLogs st, act)


/-! ## Concrete fixtures for the instantiations below -/

/-- A sample stored baseline: two known indicators and one key outside the
eight known names. -/
def sampleBaseline : List (String × Json) :=
  [("Real GDP (FRED)", Json.obj [("value", Json.num 2), ("date", Json.str "2024-Q1")]),
   ("Consumer Price Index (CPI)", Json.obj [("value", Json.num 300), ("date", Json.str "2024-01")]),
   ("Bitcoin Dominance", Json.obj [("value", Json.num 54), ("date", Json.str "2024-01")])]

/-- Sample fetch results: the GDP fetch failed, the CPI fetch succeeded
with a changed value. -/
def sampleFetched : List (String × Option ℚ × Json) :=
  [("Real GDP (FRED)", none, Json.null),
   ("Consumer Price Index (CPI)", some 305, Json.str "2024-02")]

/-- A transport that accepts every message. -/
def sampleNotify : String → HttpOutcome := fun _ => HttpOutcome.response 200 none

/-- The message the sample run emits. -/
def sampleMsg : String :=
  "Consumer Price Index (CPI) 更新: 由 300.0 变为 305.0 (📈 增加, 对抗通胀有利，对币市看多 🙂)"

/-- The loop state the sample run ends in. -/
def sampleState : RunState :=
  ⟨[sampleMsg], ["Message sent to Telegram successfully."],
   [("Consumer Price Index (CPI)",
     Json.obj [("value", Json.num 305), ("date", Json.str "2024-02")])],
   ["Consumer Price Index (CPI)"]⟩

/-- The merged mapping the sample run writes: GDP and the unknown key keep
their records, CPI gets the override. -/
def sampleMerged : List (String × Json) :=
  [("Real GDP (FRED)", Json.obj [("value", Json.num 2), ("date", Json.str "2024-Q1")]),
   ("Consumer Price Index (CPI)", Json.obj [("value", Json.num 305), ("date", Json.str "2024-02")]),
   ("Bitcoin Dominance", Json.obj [("value", Json.num 54), ("date", Json.str "2024-01")])]


/-- A well-formed stored baseline value — a number, or null/absent — as the
`Json` value `prev_value` holds at line 283. -/
def jsonOfPrev : Option ℚ → Json
  | none => .null
  | some p => .num p


/-- Tests that `needle` is a prefix of `hay` (structural recursion, so that concrete
instances reduce in the kernel). -/
def prefixChars : List Char → List Char → Bool
  | [], _ => true
  | _ :: _, [] => false
  | c :: cs, h :: hs => decide (c = h) && prefixChars cs hs

/-- Tests that `needle` occurs as a contiguous substring of `hay`. -/
def containsChars (needle hay : List Char) : Bool :=
  match hay with
  | [] => needle.isEmpty
  | _ :: hs => prefixChars needle hay || containsChars needle hs


/-! ## Dictionary lemmas -/

theorem objLookup_append (d e : List (String × Json)) (k : String) :
    objLookup (d ++ e) k =
      match objLookup e k with
      | some v => some v
      | none => objLookup d k := by
  induction d with
  | nil => cases he : objLookup e k <;> simp [objLookup, he]
  | cons kv rest ih =>
    cases he : objLookup e k <;> simp [objLookup, ih, he]

theorem objLookup_replace (d : List (String × Json)) (k k' : String) (v : Json) :
    objLookup (d.map (fun kv => if kv.1 = k then (k, v) else kv)) k' =
      if k = k' then (if (objLookup d k).isSome then some v else none)
      else objLookup d k' := by
  induction d with
  | nil => simp [objLookup]
  | cons kv rest ih =>
    by_cases hkk : k = k'
    · subst hkk
      by_cases hkv : kv.1 = k <;> cases hr : objLookup rest k <;>
        simp [objLookup, ih, hkv, hr]
    · by_cases hkv : kv.1 = k
      · have hkv' : ¬ kv.1 = k' := by rw [hkv]; exact hkk
        cases hr : objLookup rest k' <;>
          simp [objLookup, ih, hkk, hkv, hkv', hr]
      · cases hr : objLookup rest k' <;>
          simp [objLookup, ih, hkk, hkv, hr]

theorem objLookup_dictInsert (d : List (String × Json)) (k : String) (v : Json)
    (k' : String) :
    objLookup (dictInsert d k v) k' = if k = k' then some v else objLookup d k' := by
  unfold dictInsert
  cases hd : objLookup d k with
  | none =>
    rw [objLookup_append]
    by_cases hkk : k = k' <;> simp [objLookup, hkk]
  | some w =>
    rw [objLookup_replace]
    by_cases hkk : k = k'
    · subst hkk; simp [hd]
    · simp [hkk]

theorem objLookup_mergeNew (nd : List (String × Json)) (es : List (String × Json))
    (k : String) :
    objLookup (mergeNew es nd) k =
      match objLookup nd k with
      | some v => some v
      | none => objLookup es k := by
  induction nd generalizing es with
  | nil => cases h : objLookup es k <;> simp [mergeNew, objLookup, h]
  | cons kv rest ih =>
    simp only [mergeNew, List.foldl_cons] at *
    rw [ih]
    by_cases hk : kv.1 = k <;> cases hr : objLookup rest k <;>
      simp [objLookup, objLookup_dictInsert, hk, hr]

/-! ## Transport and loop lemmas -/

theorem send_message_to_telegram_ok (o : HttpOutcome) :
    ∃ lg, send_message_to_telegram o = .ok lg := by
  cases o with
  | netError => exact ⟨_, rfl⟩
  | response status body =>
    by_cases h : status = 200
    · exact ⟨"Message sent to Telegram successfully.",
        by simp [send_message_to_telegram, h]⟩
    · exact ⟨"Failed to send message to Telegram",
        by simp [send_message_to_telegram, h]⟩

theorem processOne_noneValue (p : Json) (nf : String → HttpOutcome)
    (st : RunState) (k : String) (d : Json) :
    processOne p nf st k none d = .ok st := rfl

theorem runStates_erase_none (p : Json) (nf : String → HttpOutcome)
    (A : String) (dA : Json) (fb : List (String × Option ℚ × Json)) :
    ∀ (fa : List (String × Option ℚ × Json)) (st : RunState),
      runStates p nf st (fa ++ (A, none, dA) :: fb) =
        runStates p nf st (fa ++ fb) := by
  intro fa
  induction fa with
  | nil => intro st; rfl
  | cons x rest ih =>
    intro st
    simp only [List.cons_append, runStates]
    cases h : processOne p nf st x.1 x.2.1 x.2.2 <;> simp [ih]

theorem runStates_unchanged (p : Json) (nf : String → HttpOutcome) :
    ∀ (l : List (String × Option ℚ × Json)) (st : RunState),
      (∀ k v d, (k, some v, d) ∈ l →
        ∃ j, getPrevValue p k = .ok j ∧ pyEqNum j v = true) →
      runStates p nf st l = .ok st := by
  intro l
  induction l with
  | nil => intro st _; rfl
  | cons x rest ih =>
    intro st h
    obtain ⟨k, cv, d⟩ := x
    cases cv with
    | none =>
      simp only [runStates, processOne_noneValue]
      exact ih st (fun k' v' d' hm => h k' v' d' (List.mem_cons_of_mem _ hm))
    | some v =>
      obtain ⟨j, hj, he⟩ := h k v d (List.mem_cons_self _ _)
      have hp : processOne p nf st k (some v) d = .ok st := by
        simp [processOne, hj, he]
      simp only [runStates, hp]
      exact ih st (fun k' v' d' hm => h k' v' d' (List.mem_cons_of_mem _ hm))

/-! ## Loop invariant: `new_data` holds exactly the changed indicators -/

theorem stateInv_init (univ : List (String × Option ℚ × Json)) :
    stateInv univ initState := by
  constructor
  · intro k; simp [initState, objLookup]
  · intro k r h; simp [initState, objLookup] at h

theorem processOne_inv (univ : List (String × Option ℚ × Json)) (p : Json)
    (nf : String → HttpOutcome) (st st' : RunState)
    (k : String) (cv : Option ℚ) (d : Json)
    (hmem : (k, cv, d) ∈ univ) (hst : stateInv univ st)
    (h : processOne p nf st k cv d = .ok st') :
    stateInv univ st' := by
  cases cv with
  | none =>
    rw [processOne_noneValue] at h
    injection h with h2
    subst h2; exact hst
  | some v =>
    simp only [processOne] at h
    cases hg : getPrevValue p k with
    | error e => simp only [hg] at h; exact Except.noConfusion h
    | ok pv =>
      simp only [hg] at h
      by_cases he : pyEqNum pv v = true
      · rw [if_pos he] at h
        injection h with h2
        subst h2; exact hst
      · rw [if_neg he] at h
        cases hd : directionOf pv v with
        | error e => simp only [hd] at h; exact Except.noConfusion h
        | ok dir =>
          simp only [hd] at h
          cases hi : influenceLookup k dir with
          | error e => simp only [hi] at h; exact Except.noConfusion h
          | ok impact =>
            simp only [hi] at h
            cases hs : send_message_to_telegram
                (nf (changeMessage k pv v dir impact)) with
            | error e => simp only [hs] at h; exact Except.noConfusion h
            | ok lg =>
              simp only [hs] at h
              injection h with h2
              subst h2
              constructor
              · intro k'
                rw [objLookup_dictInsert]
                by_cases hkk : k = k'
                · subst hkk; simp
                · simp only [if_neg hkk]
                  rw [hst.1 k']
                  constructor
                  · intro hm; exact List.mem_append.mpr (Or.inl hm)
                  · intro hm
                    rcases List.mem_append.mp hm with hm | hm
                    · exact hm
                    · exact absurd (List.mem_singleton.mp hm).symm hkk
              · intro k' r hr2
                rw [objLookup_dictInsert] at hr2
                by_cases hkk : k = k'
                · subst hkk
                  rw [if_pos rfl] at hr2
                  injection hr2 with h3
                  exact ⟨v, d, hmem, h3.symm⟩
                · rw [if_neg hkk] at hr2
                  exact hst.2 k' r hr2

theorem runStates_inv (univ : List (String × Option ℚ × Json)) (p : Json)
    (nf : String → HttpOutcome) :
    ∀ (l : List (String × Option ℚ × Json)) (st0 st : RunState),
      (∀ x ∈ l, x ∈ univ) → stateInv univ st0 →
      runStates p nf st0 l = .ok st → stateInv univ st := by
  intro l
  induction l with
  | nil =>
    intro st0 st _ h0 hr
    injection hr with h2
    subst h2; exact h0
  | cons x rest ih =>
    intro st0 st hsub h0 hr
    simp only [runStates] at hr
    cases hp : processOne p nf st0 x.1 x.2.1 x.2.2 with
    | error e => rw [hp] at hr; cases hr
    | ok st1 =>
      rw [hp] at hr
      have h1 : stateInv univ st1 :=
        processOne_inv univ p nf st0 st1 x.1 x.2.1 x.2.2
          (hsub x (List.mem_cons_self _ _)) h0 hp
      exact ih st1 st (fun y hy => hsub y (List.mem_cons_of_mem _ hy)) h1 hr

/-! ## Notifier independence -/

theorem scrubLogs_fields (a b : RunState) (h : scrubLogs a = scrubLogs b) :
    a.notifications = b.notifications ∧ a.new_data = b.new_data ∧
    a.updated_indicators = b.updated_indicators := by
  cases a; cases b
  simp only [scrubLogs, RunState.mk.injEq, eq_self_iff_true, true_and] at h
  exact ⟨h.1, h.2.1, h.2.2⟩

theorem runStates_notify_irrel (p : Json) (nf nfB : String → HttpOutcome) :
    ∀ (l : List (String × Option ℚ × Json)) (st0 st0' : RunState),
      scrubLogs st0 = scrubLogs st0' →
      scrubExcept (runStates p nf st0 l) = scrubExcept (runStates p nfB st0' l) := by
  intro l
  induction l with
  | nil => intro st0 st0' h; simp [runStates, scrubExcept, h]
  | cons x rest ih =>
    intro st0 st0' h
    obtain ⟨k, cv, d⟩ := x
    cases cv with
    | none =>
      simp only [runStates, processOne_noneValue]
      exact ih st0 st0' h
    | some v =>
      obtain ⟨hn, hd2, hu⟩ := scrubLogs_fields _ _ h
      cases hg : getPrevValue p k with
      | error e =>
        have hp : processOne p nf st0 k (some v) d = .error e := by
          simp [processOne, hg]
        have hp' : processOne p nfB st0' k (some v) d = .error e := by
          simp [processOne, hg]
        simp [runStates, hp, hp', scrubExcept]
      | ok pv =>
        by_cases he : pyEqNum pv v = true
        · have hp : processOne p nf st0 k (some v) d = .ok st0 := by
            simp [processOne, hg, he]
          have hp' : processOne p nfB st0' k (some v) d = .ok st0' := by
            simp [processOne, hg, he]
          simp only [runStates, hp, hp']
          exact ih st0 st0' h
        · cases hdir : directionOf pv v with
          | error e =>
            have hp : processOne p nf st0 k (some v) d = .error e := by
              simp [processOne, hg, he, hdir]
            have hp' : processOne p nfB st0' k (some v) d = .error e := by
              simp [processOne, hg, he, hdir]
            simp [runStates, hp, hp', scrubExcept]
          | ok dir =>
            cases hi : influenceLookup k dir with
            | error e =>
              have hp : processOne p nf st0 k (some v) d = .error e := by
                simp [processOne, hg, he, hdir, hi]
              have hp' : processOne p nfB st0' k (some v) d = .error e := by
                simp [processOne, hg, he, hdir, hi]
              simp [runStates, hp, hp', scrubExcept]
            | ok impact =>
              obtain ⟨lg, hs⟩ := send_message_to_telegram_ok
                (nf (changeMessage k pv v dir impact))
              obtain ⟨lg', hs'⟩ := send_message_to_telegram_ok
                (nfB (changeMessage k pv v dir impact))
              have hp : processOne p nf st0 k (some v) d =
                  .ok { notifications :=
                          st0.notifications ++ [changeMessage k pv v dir impact],
                        notifyLogs := st0.notifyLogs ++ [lg],
                        new_data := dictInsert st0.new_data k
                          (Json.obj [("value", Json.num v), ("date", d)]),
                        updated_indicators := st0.updated_indicators ++ [k] } := by
                simp [processOne, hg, he, hdir, hi, hs]
              have hp' : processOne p nfB st0' k (some v) d =
                  .ok { notifications :=
                          st0'.notifications ++ [changeMessage k pv v dir impact],
                        notifyLogs := st0'.notifyLogs ++ [lg'],
                        new_data := dictInsert st0'.new_data k
                          (Json.obj [("value", Json.num v), ("date", d)]),
                        updated_indicators := st0'.updated_indicators ++ [k] } := by
                simp [processOne, hg, he, hdir, hi, hs']
              simp only [runStates, hp, hp']
              apply ih
              simp [scrubLogs, hn, hd2, hu]

theorem commitAction_scrub (p : Json) (a b : RunState)
    (h : scrubLogs a = scrubLogs b) :
    commitAction p a = commitAction p b := by
  obtain ⟨_, hd2, hu⟩ := scrubLogs_fields _ _ h
  unfold commitAction
  rw [hd2, hu]

theorem sampleRun :
    check_and_log_data (Stored.valid (Json.obj sampleBaseline)) "2025-06-01 08:00:00"
      sampleNotify sampleFetched =
      .ok (sampleState, FileAction.write (Json.obj sampleMerged)) := rfl

/-! ## Claim C2 -/

/-- C2: For an indicator being reconciled, the computed direction is
`"increase"` iff the previous value is non-null and the fresh value is
strictly greater; in every other case — in particular whenever the previous
value is null, for any fresh value — it is `"decrease"`. -/
theorem direction_increase_iff_prev_lt (prev : Option ℚ) (cv : ℚ) :
    (directionOf (jsonOfPrev prev) cv = .ok "increase" ↔
      ∃ p, prev = some p ∧ p < cv) ∧
    directionOf (jsonOfPrev prev) cv =
      .ok (match prev with
           | some p => if p < cv then "increase" else "decrease"
           | none => "decrease") := by
  cases prev with
  | none =>
    refine ⟨⟨fun hcontra => ?_, ?_⟩, rfl⟩
    · injection hcontra with h2
      exact absurd h2 (by decide)
    · rintro ⟨p, hp, _⟩; cases hp
  | some p =>
    have heq : directionOf (jsonOfPrev (some p)) cv =
        .ok (if p < cv then "increase" else "decrease") := by
      simp [jsonOfPrev, directionOf, pyGtNum]
    by_cases h : p < cv
    · rw [if_pos h] at heq
      refine ⟨⟨fun _ => ⟨p, rfl, h⟩, fun _ => heq⟩, ?_⟩
      rw [heq]; simp [h]
    · rw [if_neg h] at heq
      refine ⟨⟨fun hcontra => ?_, ?_⟩, ?_⟩
      · rw [heq] at hcontra
        injection hcontra with h2
        exact absurd h2 (by decide)
      · rintro ⟨p', hp', hlt⟩
        injection hp' with h2
        exact absurd (h2 ▸ hlt) h
      · rw [heq]; simp [h]

/-! ## Claim C6 -/

/-- C6 counterexample: A stored baseline that is valid JSON but not a
mapping (here a JSON array) is *not* replaced by an empty mapping: it is
passed through, and the first baseline access of a successfully fetched
indicator raises `AttributeError`, crashing the run. -/
theorem load_malformed_crash_cex :
    check_and_log_data (Stored.valid (Json.arr [])) "2025-06-01 08:00:00"
      sampleNotify [("Unemployment Rate", some 4, Json.null)] =
      .error "AttributeError" := rfl

/-- C6 amended: Loading never raises on a missing, empty, or
JSON-undecodable stored file: each yields the empty mapping, under which
every indicator reads back a null previous value and every computed
direction is `"decrease"`.  (Stored content that decodes to valid JSON of a
non-mapping shape is passed through unchanged and crashes the run at its
first baseline access — see the counterexample.) -/
theorem load_fails_open_on_decode_error :
    loadPrevData Stored.missing = Json.obj [] ∧
    loadPrevData Stored.empty = Json.obj [] ∧
    loadPrevData Stored.invalid = Json.obj [] ∧
    (∀ k, getPrevValue (Json.obj []) k = .ok Json.null) ∧
    (∀ cv : ℚ, directionOf Json.null cv = .ok "decrease") :=
  ⟨rfl, rfl, rfl, fun _ => rfl, fun _ => rfl⟩

/-! ## Claim C7 -/

/-- C7 counterexample: The fetch adapters do not absorb all failures:
a network error (the `requests` call raising) propagates out of
`get_real_gdp` and `get_fear_greed_index`, and a 200 response whose
`observations[0].value` is the non-numeric string `"."` (FRED's missing-data
marker) makes `float(...)` raise `ValueError` — none of these return
`(None, None)`. -/
theorem adapter_neterror_raises_cex :
    get_real_gdp HttpOutcome.netError = .error "ConnectionError" ∧
    get_fear_greed_index HttpOutcome.netError = .error "ConnectionError" ∧
    get_real_gdp (HttpOutcome.response 200 (some (Json.obj [("observations",
        Json.arr [Json.obj [("value", Json.str "."), ("date", Json.str "2024-01-01")]])])))
      = .error "ValueError" :=
  ⟨rfl, rfl, rfl⟩

/-- C7 amended: The adapters return `(None, None)` exactly on a
non-2xx response or a 200 response whose JSON body is a mapping without a
non-empty `observations`/`data` list; a network error or a non-JSON body
raises past the boundary (as does a malformed payload, see the
counterexample). -/
theorem adapter_contract_amended :
    (∀ status body, status ≠ 200 →
      get_real_gdp (HttpOutcome.response status body) = .ok (none, Json.null)) ∧
    (∀ status body, status ≠ 200 →
      get_fear_greed_index (HttpOutcome.response status body) = .ok (none, Json.null)) ∧
    (∀ es, objLookup es "observations" = none →
      get_real_gdp (HttpOutcome.response 200 (some (Json.obj es))) = .ok (none, Json.null)) ∧
    (∀ es, objLookup es "observations" = some (Json.arr []) →
      get_real_gdp (HttpOutcome.response 200 (some (Json.obj es))) = .ok (none, Json.null)) ∧
    (∀ es, objLookup es "data" = none →
      get_fear_greed_index (HttpOutcome.response 200 (some (Json.obj es))) = .ok (none, Json.null)) ∧
    (∀ es, objLookup es "data" = some (Json.arr []) →
      get_fear_greed_index (HttpOutcome.response 200 (some (Json.obj es))) = .ok (none, Json.null)) ∧
    get_real_gdp HttpOutcome.netError = .error "ConnectionError" ∧
    get_fear_greed_index HttpOutcome.netError = .error "ConnectionError" ∧
    get_real_gdp (HttpOutcome.response 200 none) = .error "JSONDecodeError" ∧
    get_fear_greed_index (HttpOutcome.response 200 none) = .error "JSONDecodeError" := by
  refine ⟨?_, ?_, ?_, ?_, ?_, ?_, rfl, rfl, rfl, rfl⟩
  · intro status body h; simp [get_real_gdp, h]
  · intro status body h; simp [get_fear_greed_index, h]
  · intro es h; simp [get_real_gdp, pyContains, h]
  · intro es h; simp [get_real_gdp, pyContains, pyGetItemStr, pyLen, h]
  · intro es h; simp [get_fear_greed_index, pyContains, h]
  · intro es h; simp [get_fear_greed_index, pyContains, pyGetItemStr, pyLen, h]

theorem adapter_contract_amended_witness :
    ((500 : ℕ) ≠ 200 ∧
      get_real_gdp (HttpOutcome.response 500 none) = .ok (none, Json.null) ∧
      get_fear_greed_index (HttpOutcome.response 500 none) = .ok (none, Json.null)) ∧
    (objLookup [] "observations" = none ∧
      get_real_gdp (HttpOutcome.response 200 (some (Json.obj []))) = .ok (none, Json.null)) ∧
    (objLookup [("observations", Json.arr [])] "observations" = some (Json.arr []) ∧
      get_real_gdp (HttpOutcome.response 200
        (some (Json.obj [("observations", Json.arr [])]))) = .ok (none, Json.null)) ∧
    (objLookup [] "data" = none ∧
      get_fear_greed_index (HttpOutcome.response 200 (some (Json.obj []))) = .ok (none, Json.null)) ∧
    (objLookup [("data", Json.arr [])] "data" = some (Json.arr []) ∧
      get_fear_greed_index (HttpOutcome.response 200
        (some (Json.obj [("data", Json.arr [])]))) = .ok (none, Json.null)) :=
  ⟨⟨by decide, adapter_contract_amended.1 500 none (by decide),
      adapter_contract_amended.2.1 500 none (by decide)⟩,
   ⟨rfl, adapter_contract_amended.2.2.1 [] rfl⟩,
   ⟨rfl, adapter_contract_amended.2.2.2.1 [("observations", Json.arr [])] rfl⟩,
   ⟨rfl, adapter_contract_amended.2.2.2.2.1 [] rfl⟩,
   ⟨rfl, adapter_contract_amended.2.2.2.2.2.1 [("data", Json.arr [])] rfl⟩⟩

/-! ## Claim C8 -/

/-- C8 code bug: At a concrete first observation of the unemployment
rate, the emitted message contains the indicator name, the explicit
no-prior-record marker, the new value, the directional glyph/label and the
catalog's decrease-impact text — but *no* timestamp: line 285 binds
`timestamp = get_utc_plus_8_time()` and never uses it, so the message does
not contain the clock reading and the whole run result is independent of
the clock. -/
theorem message_lacks_timestamp :
    check_and_log_data Stored.missing "2025-06-01 08:00:00" sampleNotify
        [("Unemployment Rate", some (7 : ℚ), Json.str "2025年 May")] =
      .ok ({ notifications :=
               ["Unemployment Rate 更新: 由 无记录的 变为 7.0 (📉 减少, 行情利好，对币市看多 🙂)"],
             notifyLogs := ["Message sent to Telegram successfully."],
             new_data := [("Unemployment Rate",
               Json.obj [("value", Json.num 7), ("date", Json.str "2025年 May")])],
             updated_indicators := ["Unemployment Rate"] },
           FileAction.write (Json.obj [("Unemployment Rate",
             Json.obj [("value", Json.num 7), ("date", Json.str "2025年 May")])])) ∧
    containsChars "2025-06-01 08:00:00".toList
      "Unemployment Rate 更新: 由 无记录的 变为 7.0 (📉 减少, 行情利好，对币市看多 🙂)".toList = false ∧
    containsChars "Unemployment Rate".toList
      "Unemployment Rate 更新: 由 无记录的 变为 7.0 (📉 减少, 行情利好，对币市看多 🙂)".toList = true ∧
    containsChars "无记录的".toList
      "Unemployment Rate 更新: 由 无记录的 变为 7.0 (📉 减少, 行情利好，对币市看多 🙂)".toList = true ∧
    containsChars "7.0".toList
      "Unemployment Rate 更新: 由 无记录的 变为 7.0 (📉 减少, 行情利好，对币市看多 🙂)".toList = true ∧
    containsChars "📉 减少".toList
      "Unemployment Rate 更新: 由 无记录的 变为 7.0 (📉 减少, 行情利好，对币市看多 🙂)".toList = true ∧
    containsChars "行情利好，对币市看多 🙂".toList
      "Unemployment Rate 更新: 由 无记录的 变为 7.0 (📉 减少, 行情利好，对币市看多 🙂)".toList = true ∧
    (∀ now nowB,
      check_and_log_data Stored.missing now sampleNotify
          [("Unemployment Rate", some (7 : ℚ), Json.str "2025年 May")] =
        check_and_log_data Stored.missing nowB sampleNotify
          [("Unemployment Rate", some (7 : ℚ), Json.str "2025年 May")]) :=
  ⟨rfl, by decide, by decide, by decide, by decide, by decide, by decide,
   fun _ _ => rfl⟩

/-! ## Claim C9 -/

/-- C9: The Telegram transport absorbs every delivery failure (the
whole call sits in `try/except Exception`), and the run's notifications,
`new_data`, `updated_indicators` and file action are identical under any
two transports — only the transport log lines can differ. -/
theorem notifier_failure_absorbed :
    (∀ o, ∃ lg, send_message_to_telegram o = .ok lg) ∧
    (∀ stored now notify notifyB fetched,
      scrubRun (check_and_log_data stored now notify fetched) =
        scrubRun (check_and_log_data stored now notifyB fetched)) := by
  constructor
  · exact send_message_to_telegram_ok
  · intro stored now notify notifyB fetched
    have h := runStates_notify_irrel (loadPrevData stored) notify notifyB fetched
      initState initState rfl
    simp only [check_and_log_data]
    cases h1 : runStates (loadPrevData stored) notify initState fetched with
    | error e =>
      cases h2 : runStates (loadPrevData stored) notifyB initState fetched with
      | error eB =>
        rw [h1, h2] at h
        simp only [scrubExcept] at h
        injection h with h3
        subst h3
        simp only [h1, h2]
      | ok stB =>
        rw [h1, h2] at h
        simp only [scrubExcept] at h
        exact Except.noConfusion h
    | ok st =>
      cases h2 : runStates (loadPrevData stored) notifyB initState fetched with
      | error eB =>
        rw [h1, h2] at h
        simp only [scrubExcept] at h
        exact Except.noConfusion h
      | ok stB =>
        rw [h1, h2] at h
        simp only [scrubExcept] at h
        injection h with h3
        simp only [h1, h2]
        rw [commitAction_scrub (loadPrevData stored) st stB h3]
        cases hca : commitAction (loadPrevData stored) stB with
        | error e => simp [scrubRun]
        | ok act => simp [scrubRun, h3]

/-! ## Claim C1 -/

/-- C1: (a) The baseline file is written only when at least one
indicator changed (the single write site is guarded by
`updated_indicators`); (b) a run in which every successfully fetched value
equals the stored baseline value produces zero notifications and no write
at all. -/
theorem baseline_write_gated_and_idempotent :
    (∀ stored now notify fetched st c,
      check_and_log_data stored now notify fetched =
        .ok (st, FileAction.write c) →
      st.updated_indicators ≠ []) ∧
    (∀ stored now notify fetched,
      (∀ k v d, (k, some v, d) ∈ fetched →
        ∃ j, getPrevValue (loadPrevData stored) k = .ok j ∧ pyEqNum j v = true) →
      check_and_log_data stored now notify fetched =
        .ok (initState, FileAction.noWrite)) := by
  constructor
  · intro stored now notify fetched st c h
    simp only [check_and_log_data] at h
    cases h1 : runStates (loadPrevData stored) notify initState fetched with
    | error e =>
      simp only [h1] at h
      exact Except.noConfusion h
    | ok st0 =>
      simp only [h1] at h
      cases hact : commitAction (loadPrevData stored) st0 with
      | error e =>
        simp only [hact] at h
        exact Except.noConfusion h
      | ok act =>
        simp only [hact] at h
        injection h with h2
        injection h2 with h3 h4
        intro hnil
        have hnil0 : st0.updated_indicators = [] := by rw [h3, hnil]
        have hno : commitAction (loadPrevData stored) st0 = .ok FileAction.noWrite := by
          simp [commitAction, hnil0]
        have h5 := hno.symm.trans hact
        injection h5 with h6
        rw [h4] at h6
        exact FileAction.noConfusion h6
  · intro stored now notify fetched hall
    have hrs := runStates_unchanged (loadPrevData stored) notify fetched initState hall
    have hca : commitAction (loadPrevData stored) initState = .ok FileAction.noWrite := rfl
    simp only [check_and_log_data, hrs, hca]

theorem baseline_write_gated_and_idempotent_witness :
    (∀ k v d, (k, some v, d) ∈ ([("Real GDP (FRED)", (none : Option ℚ), Json.null),
        ("Consumer Price Index (CPI)", some (300 : ℚ), Json.str "2024-02")] :
        List (String × Option ℚ × Json)) →
      ∃ j, getPrevValue (loadPrevData (Stored.valid (Json.obj sampleBaseline))) k = .ok j ∧
        pyEqNum j v = true) ∧
    check_and_log_data (Stored.valid (Json.obj sampleBaseline)) "2025-06-01 08:00:00"
      sampleNotify
      [("Real GDP (FRED)", none, Json.null),
       ("Consumer Price Index (CPI)", some 300, Json.str "2024-02")] =
      .ok (initState, FileAction.noWrite) := by
  have hall : ∀ k v d, (k, some v, d) ∈ ([("Real GDP (FRED)", (none : Option ℚ), Json.null),
      ("Consumer Price Index (CPI)", some (300 : ℚ), Json.str "2024-02")] :
      List (String × Option ℚ × Json)) →
      ∃ j, getPrevValue (loadPrevData (Stored.valid (Json.obj sampleBaseline))) k = .ok j ∧
        pyEqNum j v = true := by
    intro k v d hm
    rcases List.mem_cons.mp hm with h1 | h1
    · exfalso
      have hv := congrArg (fun t => t.2.1) h1
      simp at hv
    · rcases List.mem_cons.mp h1 with h2 | h2
      · have hk := congrArg Prod.fst h2
        have hv := congrArg (fun t => t.2.1) h2
        simp at hk hv
        subst hk; subst hv
        exact ⟨Json.num 300, rfl, by decide⟩
      · exact absurd h2 (List.not_mem_nil _)
  exact ⟨hall, baseline_write_gated_and_idempotent.2 _ _ _ _ hall⟩

/-! ## Claim C3 -/

theorem influenceLookup_known (key : String) (hk : key ∈ indicatorNames) :
    (∃ t, influenceLookup key "increase" = .ok t) ∧
    (∃ t, influenceLookup key "decrease" = .ok t) := by
  fin_cases hk <;> exact ⟨⟨_, rfl⟩, ⟨_, rfl⟩⟩

/-- C3: A fresh non-null value numerically equal to the stored baseline
value triggers nothing — the state is returned untouched, whatever the
stored or fresh date labels — while a fresh value differing from the stored
numeric value by any nonzero amount always appends exactly one
notification and one baseline override. -/
theorem strict_value_gating :
    (∀ prev_data notify st key v date,
      getPrevValue prev_data key = .ok (Json.num v) →
      processOne prev_data notify st key (some v) date = .ok st) ∧
    (∀ prev_data notify st key p v date,
      key ∈ indicatorNames →
      getPrevValue prev_data key = .ok (Json.num p) → p ≠ v →
      ∃ msg lg,
        processOne prev_data notify st key (some v) date =
          .ok { notifications := st.notifications ++ [msg],
                notifyLogs := st.notifyLogs ++ [lg],
                new_data := dictInsert st.new_data key
                  (Json.obj [("value", Json.num v), ("date", date)]),
                updated_indicators := st.updated_indicators ++ [key] }) := by
  constructor
  · intro prev_data notify st key v date h
    simp [processOne, h, pyEqNum]
  · intro prev_data notify st key p v date hk hp hne
    obtain ⟨⟨ti, hti⟩, ⟨td, htd⟩⟩ := influenceLookup_known key hk
    have heqf : pyEqNum (Json.num p) v = false := by
      simp [pyEqNum, hne]
    by_cases hlt : p < v
    · have hdir : directionOf (Json.num p) v = .ok "increase" := by
        simp [directionOf, pyGtNum, hlt]
      obtain ⟨lg, hlg⟩ := send_message_to_telegram_ok
        (notify (changeMessage key (Json.num p) v "increase" ti))
      refine ⟨changeMessage key (Json.num p) v "increase" ti, lg, ?_⟩
      simp [processOne, hp, heqf, hdir, hti, hlg]
    · have hdir : directionOf (Json.num p) v = .ok "decrease" := by
        simp [directionOf, pyGtNum, hlt]
      obtain ⟨lg, hlg⟩ := send_message_to_telegram_ok
        (notify (changeMessage key (Json.num p) v "decrease" td))
      refine ⟨changeMessage key (Json.num p) v "decrease" td, lg, ?_⟩
      simp [processOne, hp, heqf, hdir, htd, hlg]

theorem strict_value_gating_witness :
    (getPrevValue (Json.obj sampleBaseline) "Consumer Price Index (CPI)" =
        .ok (Json.num 300) ∧
      processOne (Json.obj sampleBaseline) sampleNotify initState
        "Consumer Price Index (CPI)" (some 300) (Json.str "2024-03") = .ok initState) ∧
    ("Consumer Price Index (CPI)" ∈ indicatorNames ∧ (300 : ℚ) ≠ 305 ∧
      ∃ msg lg,
        processOne (Json.obj sampleBaseline) sampleNotify initState
          "Consumer Price Index (CPI)" (some 305) (Json.str "2024-03") =
          .ok { notifications := [msg], notifyLogs := [lg],
                new_data := dictInsert [] "Consumer Price Index (CPI)"
                  (Json.obj [("value", Json.num 305), ("date", Json.str "2024-03")]),
                updated_indicators := ["Consumer Price Index (CPI)"] }) := by
  refine ⟨⟨rfl, strict_value_gating.1 _ _ _ _ _ _ rfl⟩, ⟨by decide, by decide, ?_⟩⟩
  exact strict_value_gating.2 (Json.obj sampleBaseline) sampleNotify initState
    "Consumer Price Index (CPI)" 300 305 (Json.str "2024-03") (by decide) rfl (by decide)

/-! ## Decomposition of a run that ended in a write -/

theorem check_write_decomp (stored : Stored) (now : String)
    (notify : String → HttpOutcome) (fetched : List (String × Option ℚ × Json))
    (st : RunState) (merged es : List (String × Json))
    (hload : loadPrevData stored = Json.obj es)
    (hrun : check_and_log_data stored now notify fetched =
      .ok (st, FileAction.write (Json.obj merged))) :
    runStates (Json.obj es) notify initState fetched = .ok st ∧
    merged = mergeNew es st.new_data ∧ stateInv fetched st := by
  simp only [check_and_log_data, hload] at hrun
  cases h1 : runStates (Json.obj es) notify initState fetched with
  | error e =>
    simp only [h1] at hrun
    exact Except.noConfusion hrun
  | ok st0 =>
    simp only [h1] at hrun
    by_cases hu : st0.updated_indicators.isEmpty
    · have hca : commitAction (Json.obj es) st0 = .ok FileAction.noWrite := by
        simp [commitAction, hu]
      simp only [hca] at hrun
      injection hrun with h2
      injection h2 with h3 h4
      exact FileAction.noConfusion h4
    · have hca : commitAction (Json.obj es) st0 =
          .ok (FileAction.write (Json.obj (mergeNew es st0.new_data))) := by
        simp [commitAction, hu]
      simp only [hca] at hrun
      injection hrun with h2
      injection h2 with h3 h4
      subst h3
      injection h4 with h5
      injection h5 with h6
      refine ⟨rfl, h6.symm, ?_⟩
      exact runStates_inv fetched (Json.obj es) notify fetched initState st0
        (fun x hx => hx) (stateInv_init _) h1

/-! ## Claim C4 -/

/-- C4: A failed fetch (null value) contributes nothing: its iteration
returns the state untouched, the whole run computes exactly what the run
without that indicator computes (so one failure never aborts the run or the
other indicators' notifications and persistence), and in a run that ends in
a write, any indicator that was not updated keeps its stored record in the
committed mapping. -/
theorem fetch_failure_isolation :
    (∀ prev_data notify st A dA,
      processOne prev_data notify st A none dA = .ok st) ∧
    (∀ stored now notify fa fb A dA,
      check_and_log_data stored now notify (fa ++ (A, none, dA) :: fb) =
        check_and_log_data stored now notify (fa ++ fb)) ∧
    (∀ stored now notify fetched st merged es A,
      loadPrevData stored = Json.obj es →
      check_and_log_data stored now notify fetched =
        .ok (st, FileAction.write (Json.obj merged)) →
      A ∉ st.updated_indicators →
      objLookup merged A = objLookup es A) := by
  refine ⟨fun p nf st A dA => processOne_noneValue p nf st A dA, ?_, ?_⟩
  · intro stored now notify fa fb A dA
    simp only [check_and_log_data, runStates_erase_none]
  · intro stored now notify fetched st merged es A hload hrun hA
    obtain ⟨h1, hm, hinv⟩ := check_write_decomp stored now notify fetched st merged es
      hload hrun
    cases hnd : objLookup st.new_data A with
    | some w =>
      exact absurd ((hinv.1 A).mp (by rw [hnd]; rfl)) hA
    | none =>
      rw [hm, objLookup_mergeNew]
      simp [hnd]

theorem fetch_failure_isolation_witness :
    check_and_log_data (Stored.valid (Json.obj sampleBaseline)) "2025-06-01 08:00:00"
        sampleNotify sampleFetched =
      check_and_log_data (Stored.valid (Json.obj sampleBaseline)) "2025-06-01 08:00:00"
        sampleNotify [("Consumer Price Index (CPI)", some 305, Json.str "2024-02")] ∧
    (loadPrevData (Stored.valid (Json.obj sampleBaseline)) = Json.obj sampleBaseline ∧
     check_and_log_data (Stored.valid (Json.obj sampleBaseline)) "2025-06-01 08:00:00"
        sampleNotify sampleFetched =
        .ok (sampleState, FileAction.write (Json.obj sampleMerged)) ∧
     "Real GDP (FRED)" ∉ sampleState.updated_indicators ∧
     objLookup sampleMerged "Real GDP (FRED)" = objLookup sampleBaseline "Real GDP (FRED)") := by
  refine ⟨?_, rfl, sampleRun, by decide, ?_⟩
  · exact fetch_failure_isolation.2.1
      (Stored.valid (Json.obj sampleBaseline)) "2025-06-01 08:00:00" sampleNotify
      [] [("Consumer Price Index (CPI)", some 305, Json.str "2024-02")]
      "Real GDP (FRED)" Json.null
  · exact fetch_failure_isolation.2.2
      (Stored.valid (Json.obj sampleBaseline)) "2025-06-01 08:00:00" sampleNotify
      sampleFetched sampleState sampleMerged sampleBaseline "Real GDP (FRED)"
      rfl sampleRun (by decide)

/-! ## Claim C5 -/

/-- C5: In a run that commits, the committed mapping is the loaded
baseline merged with overrides for exactly the updated indicators: a key
not among the updated indicators (unchanged, fetch-failed, or never
fetched) keeps its loaded record, and every updated indicator's committed
record is `{value: freshValue, date: freshDate}` for a fetched non-null
observation of that indicator. -/
theorem committed_baseline_merge (stored : Stored) (now : String)
    (notify : String → HttpOutcome) (fetched : List (String × Option ℚ × Json))
    (st : RunState) (merged es : List (String × Json))
    (hload : loadPrevData stored = Json.obj es)
    (hrun : check_and_log_data stored now notify fetched =
      .ok (st, FileAction.write (Json.obj merged))) :
    (∀ k, k ∉ st.updated_indicators → objLookup merged k = objLookup es k) ∧
    (∀ k, k ∈ st.updated_indicators →
      ∃ v d, (k, some v, d) ∈ fetched ∧
        objLookup merged k = some (Json.obj [("value", Json.num v), ("date", d)])) := by
  obtain ⟨h1, hm, hinv⟩ := check_write_decomp stored now notify fetched st merged es
    hload hrun
  constructor
  · intro k hk
    cases hnd : objLookup st.new_data k with
    | some w => exact absurd ((hinv.1 k).mp (by rw [hnd]; rfl)) hk
    | none =>
      rw [hm, objLookup_mergeNew]
      simp [hnd]
  · intro k hk
    have hsome : (objLookup st.new_data k).isSome = true := (hinv.1 k).mpr hk
    cases hnd : objLookup st.new_data k with
    | none => rw [hnd] at hsome; simp at hsome
    | some r =>
      obtain ⟨v, d, hmem, hrec⟩ := hinv.2 k r hnd
      refine ⟨v, d, hmem, ?_⟩
      rw [hm, objLookup_mergeNew]
      simp only [hnd]
      rw [hrec]

theorem committed_baseline_merge_witness :
    (loadPrevData (Stored.valid (Json.obj sampleBaseline)) = Json.obj sampleBaseline ∧
     check_and_log_data (Stored.valid (Json.obj sampleBaseline)) "2025-06-01 08:00:00"
       sampleNotify sampleFetched =
       .ok (sampleState, FileAction.write (Json.obj sampleMerged))) ∧
    ("Bitcoin Dominance" ∉ sampleState.updated_indicators ∧
     objLookup sampleMerged "Bitcoin Dominance" =
       objLookup sampleBaseline "Bitcoin Dominance") ∧
    ("Consumer Price Index (CPI)" ∈ sampleState.updated_indicators ∧
     ∃ v d, ("Consumer Price Index (CPI)", some v, d) ∈ sampleFetched ∧
       objLookup sampleMerged "Consumer Price Index (CPI)" =
         some (Json.obj [("value", Json.num v), ("date", d)])) := by
  refine ⟨⟨rfl, sampleRun⟩, ⟨by decide, ?_⟩, ⟨by decide, ?_⟩⟩
  · exact (committed_baseline_merge (Stored.valid (Json.obj sampleBaseline))
      "2025-06-01 08:00:00" sampleNotify sampleFetched sampleState sampleMerged
      sampleBaseline rfl sampleRun).1 "Bitcoin Dominance" (by decide)
  · exact (committed_baseline_merge (Stored.valid (Json.obj sampleBaseline))
      "2025-06-01 08:00:00" sampleNotify sampleFetched sampleState sampleMerged
      sampleBaseline rfl sampleRun).2 "Consumer Price Index (CPI)" (by decide)

/-! ## Claim C10 -/

/-- C10: Committing never deletes baseline entries: every key of the
loaded mapping — known indicator name or not — is present in the committed
mapping, with its record unchanged unless that key is one of the run's
updated indicators. -/
theorem commit_preserves_keys (stored : Stored) (now : String)
    (notify : String → HttpOutcome) (fetched : List (String × Option ℚ × Json))
    (st : RunState) (merged es : List (String × Json))
    (hload : loadPrevData stored = Json.obj es)
    (hrun : check_and_log_data stored now notify fetched =
      .ok (st, FileAction.write (Json.obj merged)))
    (k : String) (r : Json) (hk : objLookup es k = some r) :
    ∃ rB, objLookup merged k = some rB ∧ (k ∉ st.updated_indicators → rB = r) := by
  obtain ⟨h1, hm, hinv⟩ := check_write_decomp stored now notify fetched st merged es
    hload hrun
  cases hnd : objLookup st.new_data k with
  | none =>
    refine ⟨r, ?_, fun _ => rfl⟩
    rw [hm, objLookup_mergeNew]
    simp [hnd, hk]
  | some w =>
    refine ⟨w, ?_, fun hnk => absurd ((hinv.1 k).mp (by rw [hnd]; rfl)) hnk⟩
    rw [hm, objLookup_mergeNew]
    simp [hnd]

theorem commit_preserves_keys_witness :
    (loadPrevData (Stored.valid (Json.obj sampleBaseline)) = Json.obj sampleBaseline ∧
     check_and_log_data (Stored.valid (Json.obj sampleBaseline)) "2025-06-01 08:00:00"
       sampleNotify sampleFetched =
       .ok (sampleState, FileAction.write (Json.obj sampleMerged)) ∧
     objLookup sampleBaseline "Bitcoin Dominance" =
       some (Json.obj [("value", Json.num 54), ("date", Json.str "2024-01")])) ∧
    ∃ rB, objLookup sampleMerged "Bitcoin Dominance" = some rB ∧
      ("Bitcoin Dominance" ∉ sampleState.updated_indicators →
        rB = Json.obj [("value", Json.num 54), ("date", Json.str "2024-01")]) :=
  ⟨⟨rfl, sampleRun, rfl⟩,
   commit_preserves_keys (Stored.valid (Json.obj sampleBaseline))
     "2025-06-01 08:00:00" sampleNotify sampleFetched sampleState sampleMerged
     sampleBaseline rfl sampleRun "Bitcoin Dominance"
     (Json.obj [("value", Json.num 54), ("date", Json.str "2024-01")]) rfl⟩
